import Mathlib

/-!
Verification development for the multi-tenant WhatsApp connection lifecycle
manager (BotsService).  The definitions below are a shallow embedding of the
service revision in src/main.ts; the shared parts (session pruning, the
connection.update close/open handler, the registry guard in iniciarBot,
enviarMensaje and enviarMensajePorEmpresaId) are line-for-line identical in
src/bots/bots.service.ts, so the embedding covers both revisions.

Modelling conventions:
  * JavaScript strings are Lean String values; the default Array.sort
    comparison (code-unit lexicographic) is embedded as the structural
    lexicographic order leChars on the underlying character lists, and
    String.startsWith / split are embedded as structural recursions on the
    character lists (the library versions do not reduce in the kernel).
  * The two in-process maps (bots: id -> socket handle, connectionAttempts:
    id -> counter) are embedded as a list of registered ids plus an
    association list of counters; socket handles are opaque, so only the
    presence of an id matters.
  * Side effects (opening a Provider connection, the backoff wait, the
    webhook POST, the local fallback, an outbound send) are recorded in an
    explicit action trace; fallible operations return Except.
-/

namespace WhatsappBot

/-! ## Lexicographic order on character lists

Embeds the default JavaScript string comparison used by Array.prototype.sort
in limpiarSesionesAntiguas (bots.service.ts line 76 / main.ts line 83). -/

/-- Lexicographic (code-unit) less-or-equal on character lists. -/
def leChars : List Char → List Char → Bool
  | [], _ => true
  | _ :: _, [] => false
  | a :: as, b :: bs => if a < b then true else if b < a then false else leChars as bs

/-- Lexicographic less-or-equal on strings, via their character lists. -/
def leStr (a b : String) : Bool := leChars a.data b.data

lemma leChars_trans : ∀ {a b c : List Char},
    leChars a b = true → leChars b c = true → leChars a c = true := by
  intro a
  induction a with
  | nil => intro b c _ _; simp [leChars]
  | cons x xs ih =>
    intro b c hab hbc
    cases b with
    | nil => simp [leChars] at hab
    | cons y ys =>
      cases c with
      | nil => simp [leChars] at hbc
      | cons z zs =>
        simp only [leChars] at hab hbc ⊢
        rcases lt_trichotomy x y with hxy | hxy | hxy
        · rcases lt_trichotomy y z with hyz | hyz | hyz
          · rw [if_pos (lt_trans hxy hyz)]
          · subst hyz; rw [if_pos hxy]
          · rw [if_neg (asymm hyz), if_pos hyz] at hbc
            exact absurd hbc (by simp)
        · subst hxy
          rw [if_neg (lt_irrefl x), if_neg (lt_irrefl x)] at hab
          rcases lt_trichotomy x z with hxz | hxz | hxz
          · rw [if_pos hxz]
          · subst hxz
            rw [if_neg (lt_irrefl x), if_neg (lt_irrefl x)] at hbc ⊢
            exact ih hab hbc
          · rw [if_neg (asymm hxz), if_pos hxz] at hbc
            exact absurd hbc (by simp)
        · rw [if_neg (asymm hxy), if_pos hxy] at hab
          exact absurd hab (by simp)

lemma leChars_total : ∀ (a b : List Char), leChars a b = true ∨ leChars b a = true := by
  intro a
  induction a with
  | nil => intro b; left; simp [leChars]
  | cons x xs ih =>
    intro b
    cases b with
    | nil => right; simp [leChars]
    | cons y ys =>
      simp only [leChars]
      rcases lt_trichotomy x y with h | h | h
      · left; rw [if_pos h]
      · subst h
        simp only [lt_irrefl, if_false]
        exact ih ys
      · right; rw [if_pos h]

lemma leStr_trans {a b c : String} (hab : leStr a b = true) (hbc : leStr b c = true) :
    leStr a c = true := leChars_trans hab hbc

lemma leStr_total (a b : String) : leStr a b = true ∨ leStr b a = true :=
  leChars_total a.data b.data

/-! ## Insertion sort by leStr

A comparison sort producing the ascending lexicographic order; this is the
behaviour of the JavaScript sesiones.sort() call on (duplicate-free)
directory listings. -/

/-- Insert a string into a list, keeping ascending leStr order. -/
def insertLe (x : String) : List String → List String
  | [] => [x]
  | y :: ys => if leStr x y then x :: y :: ys else y :: insertLe x ys

/-- Sort a list of strings ascending by leStr (insertion sort). -/
def sortLe : List String → List String
  | [] => []
  | x :: xs => insertLe x (sortLe xs)

lemma perm_insertLe (x : String) (l : List String) : List.Perm (insertLe x l) (x :: l) := by
  induction l with
  | nil => simp [insertLe]
  | cons y ys ih =>
    by_cases h : leStr x y = true
    · simp [insertLe, h]
    · simp only [insertLe, h, if_false, Bool.false_eq_true]
      exact (ih.cons y).trans (List.Perm.swap x y ys)

lemma perm_sortLe (l : List String) : List.Perm (sortLe l) l := by
  induction l with
  | nil => simp [sortLe]
  | cons x xs ih =>
    exact (perm_insertLe x (sortLe xs)).trans (ih.cons x)

lemma sorted_insertLe (x : String) (l : List String)
    (h : l.Pairwise (fun a b => leStr a b = true)) :
    (insertLe x l).Pairwise (fun a b => leStr a b = true) := by
  induction l with
  | nil => simp [insertLe]
  | cons y ys ih =>
    rcases List.pairwise_cons.1 h with ⟨h1, h2⟩
    by_cases hxy : leStr x y = true
    · simp only [insertLe, hxy, if_true]
      refine List.pairwise_cons.2 ⟨?_, h⟩
      intro b hb
      rcases List.mem_cons.1 hb with rfl | hbys
      · exact hxy
      · exact leStr_trans hxy (h1 b hbys)
    · simp only [insertLe, hxy, if_false, Bool.false_eq_true]
      refine List.pairwise_cons.2 ⟨?_, ih h2⟩
      intro b hb
      rcases List.mem_cons.1 ((perm_insertLe x ys).mem_iff.1 hb) with rfl | hbys
      · rcases leStr_total b y with hby | hyb
        · exact absurd hby hxy
        · exact hyb
      · exact h1 b hbys

lemma sorted_sortLe (l : List String) :
    (sortLe l).Pairwise (fun a b => leStr a b = true) := by
  induction l with
  | nil => simp [sortLe]
  | cons x xs ih => exact sorted_insertLe x (sortLe xs) ih

/-! ## Session pruning (limpiarSesionesAntiguas)

Embeds the per-tenant body of limpiarSesionesAntiguas (main.ts lines 60-99,
bots.service.ts lines 49-93): the input is the directory listing of one
tenant namespace, the output is the listing that survives the delete loop. -/

/-- Structural startsWith on character lists. -/
def hasPrefixChars : List Char → List Char → Bool
  | [], _ => true
  | _ :: _, [] => false
  | p :: ps, c :: cs => p == c && hasPrefixChars ps cs

/-- Embeds the JavaScript archivo.startsWith(pat) test. -/
def jsStartsWith (s pat : String) : Bool := hasPrefixChars pat.data s.data

/-- The artifact-name marker checked by the pruning loop. -/
def sessionPre : String := "session-"

/-- An artifact name is a session artifact when it carries the marker. -/
def esSesion (a : String) : Bool := jsStartsWith a sessionPre

/-- Embeds const chatId of archivo.split with a dot: the name up to the
first dot (the whole name when no dot occurs). -/
def chatKeyOf (archivo : String) : String :=
  String.mk (archivo.data.takeWhile (fun c => c != '.'))

/-- The bucket sesionesPorChat.get(k): session artifacts of the listing whose
embedded chat key is k, in listing order. -/
def grupoDe (archivos : List String) (k : String) : List String :=
  archivos.filter (fun a => esSesion a && (chatKeyOf a == k))

/-- Embeds sesiones.sort().reverse().slice(0, 10): the ten lexicographically
greatest names of a bucket. -/
def sortDescTake10 (sesiones : List String) : List String :=
  ((sortLe sesiones).reverse).take 10

/-- First-occurrence deduplication; the accumulator holds the keys already
seen.  Embeds the key set of the JavaScript Map sesionesPorChat. -/
def dedupAcc : List String → List String → List String
  | _, [] => []
  | seen, x :: xs => if x ∈ seen then dedupAcc seen xs else x :: dedupAcc (x :: seen) xs

/-- The chat keys occurring among the session artifacts of a listing. -/
def clavesDe (archivos : List String) : List String :=
  dedupAcc [] ((archivos.filter esSesion).map chatKeyOf)

/-- Embeds the set sesionesActivas: the union over all chat keys of the ten
greatest names of that key's bucket. -/
def sesionesActivas (archivos : List String) : List String :=
  (clavesDe archivos).flatMap (fun k => sortDescTake10 (grupoDe archivos k))

/-- Embeds the delete loop of limpiarSesionesAntiguas: a file survives iff it
is not a session artifact or it belongs to sesionesActivas.  The result is
the listing after pruning. -/
def limpiarSesionesAntiguas (archivos : List String) : List String :=
  archivos.filter (fun a => !(esSesion a) || decide (a ∈ sesionesActivas archivos))

/-! ## Registry, reconnect counters and the connection.update handler

Embeds the two service-level maps and the event-driven reconnect logic:
iniciarBot (main.ts lines 184-326, bots.service.ts lines 108-276) and the
connection.update callback it installs (main.ts lines 243-286,
bots.service.ts lines 167-210). -/

/-- The Baileys disconnect status code DisconnectReason.loggedOut. -/
def loggedOut : Nat := 401

/-- The constant MAX_RECONNECT_ATTEMPTS of BotsService. -/
def MAX_RECONNECT_ATTEMPTS : Nat := 5

/-- The constant RECONNECT_INTERVAL of BotsService (the fixed open-failure
retry delay, in milliseconds). -/
def RECONNECT_INTERVAL : Nat := 5000

/-- The service state visible to the lifecycle claims: the ids holding a
live socket handle (the bots map) and the per-id reconnect counters (the
connectionAttempts map, as an association list). -/
structure BotsState where
  bots : List String
  connectionAttempts : List (String × Nat)
deriving DecidableEq

/-- Embeds connectionAttempts.get(id). -/
def getAttempts (s : BotsState) (id : String) : Option Nat :=
  (s.connectionAttempts.find? (fun p => p.1 == id)).map (fun p => p.2)

/-- Embeds connectionAttempts.set(id, n). -/
def setAttempts (s : BotsState) (id : String) (n : Nat) : BotsState :=
  { s with connectionAttempts :=
      (id, n) :: s.connectionAttempts.filter (fun p => !(p.1 == id)) }

/-- Embeds connectionAttempts.delete(id). -/
def delAttempts (s : BotsState) (id : String) : BotsState :=
  { s with connectionAttempts := s.connectionAttempts.filter (fun p => !(p.1 == id)) }

/-- Embeds bots.has(id). -/
def hasBot (s : BotsState) (id : String) : Bool := s.bots.contains id

/-- Embeds bots.set(id, sock); the handle itself is opaque, so only the id
is recorded (setting an already-present key is a no-op on the key set). -/
def addBot (s : BotsState) (id : String) : BotsState :=
  if hasBot s id then s else { s with bots := s.bots ++ [id] }

/-- Embeds bots.delete(id). -/
def delBot (s : BotsState) (id : String) : BotsState :=
  { s with bots := s.bots.filter (fun b => !(b == id)) }

/-- Observable side effects of the service, recorded as a trace. -/
inductive Action where
  /-- fs.mkdirSync of the tenant session directory (iniciarBot). -/
  | ensureDir (id : String)
  /-- makeWASocket: a new Provider connection is opened (iniciarBot). -/
  | openConn (id : String)
  /-- oldSock.end before a reconnect (close handler). -/
  | endSock (id : String)
  /-- The backoff wait esperar(delay) that schedules a reconnect attempt
  (close handler). -/
  | reconnectWait (delay : Nat)
  /-- axios.post to the tenant webhook (enviarMensajeAN8N). -/
  | webhookPost (url : String)
  /-- Invocation of the local fallback procesarMensajeLocal. -/
  | localFallback
  /-- sock.sendMessage(to, text) (enviarMensaje). -/
  | sendMsg (dest text : String)
deriving DecidableEq

/-- Embeds the successful path of iniciarBot (main.ts lines 184-241 and 315,
bots.service.ts lines 108-164 and 265): the early return when the registry
already has a handle, otherwise ensure the session directory, open a
Provider connection and register the handle.  The catch branch of iniciarBot
(open failure, fixed 5-second retry, main.ts lines 316-325) is a separate
retry path never reached in the scenarios of the lifecycle claims, which are
about close-event processing and the registry guard. -/
def iniciarBot (s : BotsState) (id : String) : BotsState × List Action :=
  if hasBot s id then (s, [])
  else (addBot s id, [Action.ensureDir id, Action.openConn id])

/-- The connection field of a connection.update event. -/
inductive Conn where
  | close
  | opened
deriving DecidableEq

/-- A connection.update event: its connection field, the status code
extracted from lastDisconnect (absent when no error or no output), and
whether a qr field is present. -/
structure ConnUpdate where
  connection : Option Conn
  statusCode : Option Nat
  hasQr : Bool
deriving DecidableEq

/-- A close update carrying a status code and no qr field. -/
def closeUpd (c : Option Nat) : ConnUpdate := ⟨some Conn.close, c, false⟩

/-- An open update. -/
def openUpd : ConnUpdate := ⟨some Conn.opened, none, false⟩

/-- Embeds the connection.update handler installed by iniciarBot for tenant
id (main.ts lines 243-286, bots.service.ts lines 167-210): the qr branch
resets the counter to 0; a close event computes shouldReconnect from the
status code and attempts as stored counter plus one, then either schedules a
reconnect (set counter, wait the capped exponential backoff, end and remove
the old handle, run iniciarBot again) or, when attempts exceeds the maximum,
abandons the tenant (handle and counter removed); an open event deletes the
counter. -/
def connectionUpdate (s : BotsState) (id : String) (u : ConnUpdate) : BotsState × List Action :=
  let s0 := if u.hasQr then setAttempts s id 0 else s
  match u.connection with
  | some Conn.close =>
    let attempts := (getAttempts s0 id).getD 0 + 1
    if u.statusCode ≠ some loggedOut ∧ attempts ≤ MAX_RECONNECT_ATTEMPTS then
      let s1 := setAttempts s0 id attempts
      let delay := min (1000 * 2 ^ attempts) 30000
      let p := if hasBot s1 id then (delBot s1 id, [Action.endSock id])
               else (s1, ([] : List Action))
      let q := iniciarBot p.1 id
      (q.1, Action.reconnectWait delay :: (p.2 ++ q.2))
    else if attempts > MAX_RECONNECT_ATTEMPTS then
      (delAttempts (delBot s0 id) id, [])
    else
      (s0, [])
  | some Conn.opened => (delAttempts s0 id, [])
  | none => (s0, [])

/-- Process a sequence of connection.update events for one tenant,
concatenating the action traces. -/
def runUpdates (s : BotsState) (id : String) : List ConnUpdate → BotsState × List Action
  | [] => (s, [])
  | u :: us =>
    ((runUpdates (connectionUpdate s id u).1 id us).1,
     (connectionUpdate s id u).2 ++ (runUpdates (connectionUpdate s id u).1 id us).2)

/-- The backoff delays of the reconnect attempts scheduled in a trace. -/
def reconnectWaits : List Action → List Nat
  | [] => []
  | Action.reconnectWait d :: rest => d :: reconnectWaits rest
  | _ :: rest => reconnectWaits rest

/-! ## Message dispatch: webhook, local fallback and outbound sends

Embeds enviarMensajeAN8N (main.ts lines 115-142), procesarMensajeLocal
(main.ts lines 145-182), the messages.upsert handler (main.ts lines
292-313), enviarMensaje (main.ts lines 328-335), enviarRespuestaDesdeN8N
(main.ts lines 338-360) and enviarMensajePorEmpresaId (main.ts lines
362-374).  The outcome of the axios webhook POST and of sock.sendMessage are
oracles, since they depend on the network. -/

/-- A tenant record from empresas.json. -/
structure Empresa where
  id : String
  nombre : String
  whatsapp : String
  sesionPath : String
deriving DecidableEq

/-- The payload forwarded to the webhook. -/
structure MsgData where
  mensaje : String
  telefono : String
  empresaId : String
  timestamp : Nat
deriving DecidableEq

/-- Outcome of the axios.post call to the webhook. -/
inductive WebhookOutcome where
  /-- 2xx response within the 10-second timeout. -/
  | ok2xx
  /-- Non-2xx response (axios rejects by default). -/
  | non2xx
  /-- The 10-second timeout elapsed. -/
  | timeout
  /-- Network failure. -/
  | networkError
deriving DecidableEq

/-- axios resolves only on a 2xx response; every other outcome throws. -/
def axiosOk : WebhookOutcome → Bool
  | WebhookOutcome.ok2xx => true
  | _ => false

/-- The default N8N_WEBHOOK_URL base. -/
def N8N_WEBHOOK_URL : String := "http://n8n-server:5678/webhook"

/-- The per-tenant webhook address (enviarMensajeAN8N line 122). -/
def webhookUrlFor (empresaId : String) : String :=
  N8N_WEBHOOK_URL ++ "/empresa-" ++ empresaId

/-- Embeds sock.sendMessage: an outbound send that the network may fail. -/
def sockSendMessage (sendOk : Bool) (dest text : String) : Except String Unit × List Action :=
  (if sendOk then Except.ok () else Except.error "send failed", [Action.sendMsg dest text])

/-- Embeds enviarMensaje (main.ts lines 328-335): the send is attempted once
and any error is caught and logged, never rethrown. -/
def enviarMensaje (sendOk : Bool) (dest text : String) : Except String Unit × List Action :=
  match sockSendMessage sendOk dest text with
  | (Except.ok _, acts) => (Except.ok (), acts)
  | (Except.error _, acts) => (Except.ok (), acts)

/-- Embeds the JavaScript s.slice(1).trim().toLowerCase() on the command
text. -/
def comandoDe (mensaje : String) : String :=
  String.mk (((mensaje.data.drop 1).dropWhile Char.isWhitespace).reverse.dropWhile
    Char.isWhitespace |>.reverse |>.map Char.toLower)

/-- The local-mode help reply of procesarMensajeLocal. -/
def ayudaTexto : String :=
  "🤖 *Comandos disponibles (Modo local):*\n• *!estado [número]* - Consulta el estado de un pedido\n• *!ayuda* - Muestra este mensaje\n• *!info* - Información de la tienda\n• *!horario* - Horarios de atención\n\n*Nota:* N8N no disponible, funcionando en modo local."

/-- Embeds the JavaScript truthiness fallback s or default for strings. -/
def jsOr (s dflt : String) : String := if s == "" then dflt else s

/-- The local-mode info reply, built from the tenant record found in
empresas.json (an absent record or empty field falls back like the
JavaScript optional chaining with a default). -/
def infoTexto (e : Option Empresa) : String :=
  "🏪 *" ++ jsOr ((e.map Empresa.nombre).getD "") ("Empresa") ++
  "*\n📱 WhatsApp: " ++ jsOr ((e.map Empresa.whatsapp).getD "") ("No disponible") ++
  "\n\n¡Gracias por contactarnos! 😊"

/-- The local-mode unknown-command reply. -/
def desconocidoTexto : String :=
  "❓ Comando no reconocido. Escribe *!ayuda* para ver comandos disponibles.\n        \n*Nota:* Sistema funcionando en modo local."

/-- Embeds procesarMensajeLocal (main.ts lines 145-182): when the tenant has
no handle, return; when the text starts with the command marker, synthesize
a reply and send it through enviarMensaje; otherwise do nothing.  The
registered flag is bots.get(empresaId) being defined. -/
def procesarMensajeLocal (empresas : List Empresa) (registered sendOk : Bool)
    (empresaId : String) (d : MsgData) : Except String Unit × List Action :=
  if !registered then (Except.ok (), [])
  else if jsStartsWith d.mensaje ("!") then
    let comando := comandoDe d.mensaje
    let respuesta :=
      if comando == "ayuda" || comando == "help" then ayudaTexto
      else if comando == "info" then
        infoTexto (empresas.find? (fun e => e.id == empresaId))
      else desconocidoTexto
    enviarMensaje sendOk d.telefono respuesta
  else (Except.ok (), [])

/-- Embeds enviarMensajeAN8N (main.ts lines 115-142): POST the payload to the
tenant webhook; on any axios failure, catch it and run the local fallback
exactly once, propagating whatever the fallback does. -/
def enviarMensajeAN8N (empresas : List Empresa) (w : WebhookOutcome)
    (registered sendOk : Bool) (empresaId : String) (d : MsgData) :
    Except String Unit × List Action :=
  let url := webhookUrlFor empresaId
  if axiosOk w then (Except.ok (), [Action.webhookPost url])
  else
    let r := procesarMensajeLocal empresas registered sendOk empresaId d
    (r.1, Action.webhookPost url :: Action.localFallback :: r.2)

/-- Embeds the messages.upsert handler (main.ts lines 292-313): drop
self-originated messages and messages without (non-empty) conversation text;
otherwise dispatch through enviarMensajeAN8N inside a try/catch that
swallows every error. -/
def messagesUpsert (empresas : List Empresa) (w : WebhookOutcome)
    (registered sendOk : Bool) (empresaId : String) (fromMe : Bool)
    (texto : Option String) (sender : String) (now : Nat) :
    Except String Unit × List Action :=
  match texto with
  | some t =>
    if !fromMe && !(t == "") then
      let r := enviarMensajeAN8N empresas w registered sendOk empresaId
        ⟨t, sender, empresaId, now⟩
      ((match r.1 with
        | Except.ok _ => Except.ok ()
        | Except.error _ => Except.ok ()), r.2)
    else (Except.ok (), [])
  | none => (Except.ok (), [])

/-- Number of local-fallback invocations recorded in a trace. -/
def countFallbacks : List Action → Nat
  | [] => 0
  | Action.localFallback :: rest => countFallbacks rest + 1
  | _ :: rest => countFallbacks rest

/-- The result shape returned by the caller-facing send operations. -/
structure SendResultado where
  success : Bool
  mensaje : String
deriving DecidableEq

/-- Embeds enviarMensajePorEmpresaId (main.ts lines 362-374): look up the
handle (throwing into the local catch when absent), send through
enviarMensaje, and report a fixed success or error payload. -/
def enviarMensajePorEmpresaId (registered sendOk : Bool) (dest text : String) :
    SendResultado × List Action :=
  if registered then
    match enviarMensaje sendOk dest text with
    | (Except.ok _, acts) => (⟨true, "Mensaje enviado correctamente"⟩, acts)
    | (Except.error _, acts) => (⟨false, "Error al enviar el mensaje"⟩, acts)
  else (⟨false, "Error al enviar el mensaje"⟩, [])

/-- Embeds enviarRespuestaDesdeN8N (main.ts lines 338-360): same lookup and
send, reporting the caught error message on failure. -/
def enviarRespuestaDesdeN8N (registered sendOk : Bool) (empresaId telefono respuesta : String) :
    SendResultado × List Action :=
  if registered then
    match enviarMensaje sendOk telefono respuesta with
    | (Except.ok _, acts) =>
        (⟨true, "Respuesta enviada correctamente desde N8N"⟩, acts)
    | (Except.error e, acts) => (⟨false, e⟩, acts)
  else (⟨false, "Bot no encontrado para empresa " ++ empresaId⟩, [])

/-! ## Helper lemmas about the state maps and the close handler -/

lemma find?_filter_ne (l : List (String × Nat)) (id : String) :
    (l.filter (fun p => !(p.1 == id))).find? (fun p => p.1 == id) = none := by
  induction l with
  | nil => simp
  | cons p ps ih =>
    by_cases h : (p.1 == id) = true
    · simp [List.filter_cons, h, ih]
    · simp [List.filter_cons, h, List.find?_cons, ih]

lemma getAttempts_delAttempts (s : BotsState) (id : String) :
    getAttempts (delAttempts s id) id = none := by
  simp [getAttempts, delAttempts, find?_filter_ne]

lemma getAttempts_setAttempts (s : BotsState) (id : String) (n : Nat) :
    getAttempts (setAttempts s id n) id = some n := by
  simp [getAttempts, setAttempts, List.find?_cons]

/-- Characterization of the close handler on a logout status code: no action
at all is emitted; the state is untouched when the incremented counter is
within the maximum, and handle and counter are removed when it exceeds it. -/
lemma logoutClose_spec (s : BotsState) (id : String) (hq : Bool) :
    (connectionUpdate s id ⟨some Conn.close, some loggedOut, hq⟩).2 = [] ∧
    (hq = false → (getAttempts s id).getD 0 + 1 ≤ MAX_RECONNECT_ATTEMPTS →
      connectionUpdate s id ⟨some Conn.close, some loggedOut, hq⟩ = (s, [])) ∧
    (hq = false → (getAttempts s id).getD 0 + 1 > MAX_RECONNECT_ATTEMPTS →
      connectionUpdate s id ⟨some Conn.close, some loggedOut, hq⟩
        = (delAttempts (delBot s id) id, [])) := by
  refine ⟨?_, ?_, ?_⟩
  · simp only [connectionUpdate]
    rw [if_neg (by simp)]
    split <;> split <;> rfl
  · intro hhq hle
    subst hhq
    simp only [connectionUpdate, Bool.false_eq_true, if_false]
    rw [if_neg (by simp), if_neg (by omega)]
  · intro hhq hgt
    subst hhq
    simp only [connectionUpdate, Bool.false_eq_true, if_false]
    rw [if_neg (by simp), if_pos (by omega)]

/-- Characterization of the close handler on a non-logout status code while
the incremented counter is within the maximum: exactly one reconnect is
scheduled, with the capped exponential backoff delay. -/
lemma closeRetry_waits (s : BotsState) (id : String) (c : Option Nat)
    (hc : c ≠ some loggedOut)
    (hle : (getAttempts s id).getD 0 + 1 ≤ MAX_RECONNECT_ATTEMPTS) :
    reconnectWaits (connectionUpdate s id (closeUpd c)).2
      = [min (1000 * 2 ^ ((getAttempts s id).getD 0 + 1)) 30000] := by
  simp only [connectionUpdate, closeUpd, Bool.false_eq_true, if_false]
  rw [if_pos ⟨hc, hle⟩]
  split
  · simp [iniciarBot, reconnectWaits]
    split <;> simp [reconnectWaits]
  · simp [iniciarBot, reconnectWaits]
    split <;> simp [reconnectWaits]

/-! ## Claim C9 -/

/-- Claim C9: idempotent start.  When the registry already has a handle for
the tenant id, iniciarBot returns immediately: the state (registry, attempt
counters) is unchanged and no action (no directory creation, no Provider
connection) is performed. -/
theorem C9_idempotent_start (s : BotsState) (id : String) (h : hasBot s id = true) :
    iniciarBot s id = (s, []) := by
  simp [iniciarBot, h]

theorem C9_idempotent_start_witness :
    hasBot ⟨["t1"], []⟩ "t1" = true ∧ iniciarBot ⟨["t1"], []⟩ "t1" = (⟨["t1"], []⟩, []) :=
  ⟨by decide, C9_idempotent_start ⟨["t1"], []⟩ "t1" (by decide)⟩

/-! ## Claim C3 -/

/-- Claim C3: logout short-circuit.  A close event whose status code is the
logged-out disconnect reason never schedules a reconnect: whatever the
current state (hence whatever the attempt counter) and whether or not a qr
field is present, the handler emits no action at all — no backoff wait, no
socket teardown, no new Provider connection. -/
theorem C3_logout_short_circuit (s : BotsState) (id : String) (u : ConnUpdate)
    (hc : u.connection = some Conn.close) (hs : u.statusCode = some loggedOut) :
    (connectionUpdate s id u).2 = [] := by
  obtain ⟨conn, code, hq⟩ := u
  cases hc
  cases hs
  exact (logoutClose_spec s id hq).1

theorem C3_logout_short_circuit_witness :
    (closeUpd (some loggedOut)).connection = some Conn.close ∧
    (closeUpd (some loggedOut)).statusCode = some loggedOut ∧
    (connectionUpdate ⟨["t1"], [("t1", 3)]⟩ "t1" (closeUpd (some loggedOut))).2 = [] :=
  ⟨by decide, by decide,
    C3_logout_short_circuit ⟨["t1"], [("t1", 3)]⟩ "t1" (closeUpd (some loggedOut))
      (by decide) (by decide)⟩

/-! ## Claim C4 -/

/-- Claim C4 counterexample: a logout close does NOT always remove the
tenant from the registry.  For a tenant whose attempt counter is absent
(counter 0), the handler takes neither the retry branch (shouldReconnect is
false) nor the abandon branch (attempts = 1 is not greater than 5), so the
handle is still registered afterwards — refuting the claim that a logout
close removes the handle and reconnect state for every counter value. -/
theorem C4_logout_removal_counterexample :
    hasBot (connectionUpdate ⟨["t1"], []⟩ "t1" (closeUpd (some loggedOut))).1 "t1" = true ∧
    (connectionUpdate ⟨["t1"], []⟩ "t1" (closeUpd (some loggedOut))).1 = ⟨["t1"], []⟩ := by
  decide

/-- Claim C4 amended: a close event with the logged-out status code never
schedules a reconnect and emits no action; it removes the handle and the
attempt counter only when the incremented counter exceeds the maximum
(stored counter at least 5), and otherwise leaves the state completely
unchanged (the stale handle stays registered). -/
theorem C4_logout_state_amended (s : BotsState) (id : String) :
    (connectionUpdate s id (closeUpd (some loggedOut))).2 = [] ∧
    ((getAttempts s id).getD 0 + 1 ≤ MAX_RECONNECT_ATTEMPTS →
      connectionUpdate s id (closeUpd (some loggedOut)) = (s, [])) ∧
    ((getAttempts s id).getD 0 + 1 > MAX_RECONNECT_ATTEMPTS →
      connectionUpdate s id (closeUpd (some loggedOut))
        = (delAttempts (delBot s id) id, [])) := by
  have h := logoutClose_spec s id false
  exact ⟨h.1, h.2.1 rfl, h.2.2 rfl⟩

theorem C4_logout_state_amended_witness :
    ((getAttempts ⟨["t1"], []⟩ "t1").getD 0 + 1 ≤ MAX_RECONNECT_ATTEMPTS) ∧
    connectionUpdate ⟨["t1"], []⟩ "t1" (closeUpd (some loggedOut)) = (⟨["t1"], []⟩, []) :=
  ⟨by decide, (C4_logout_state_amended ⟨["t1"], []⟩ "t1").2.1 (by decide)⟩

/-! ## Claim C2 -/

/-- Claim C2: backoff formula.  On the n-th consecutive non-logout close for
a tenant since the last successful open (stored counter n - 1, with
1 ≤ n ≤ 5), exactly one reconnect is scheduled and its backoff delay is
min(1000 * 2 ^ n, 30000) milliseconds; in particular 2000 ms at n = 1 and
30000 ms at n = 5. -/
theorem C2_backoff_formula (s : BotsState) (id : String) (c : Option Nat) (n : Nat)
    (hc : c ≠ some loggedOut) (h1 : 1 ≤ n) (h5 : n ≤ MAX_RECONNECT_ATTEMPTS)
    (ha : (getAttempts s id).getD 0 = n - 1) :
    reconnectWaits (connectionUpdate s id (closeUpd c)).2 = [min (1000 * 2 ^ n) 30000] ∧
    min (1000 * 2 ^ 1) 30000 = 2000 ∧ min (1000 * 2 ^ 5) 30000 = 30000 := by
  have hn : (getAttempts s id).getD 0 + 1 = n := by omega
  refine ⟨?_, by decide, by decide⟩
  have h := closeRetry_waits s id c hc (by omega)
  rw [hn] at h
  exact h

theorem C2_backoff_formula_witness :
    ((some 428 : Option Nat) ≠ some loggedOut ∧ 1 ≤ 5 ∧ 5 ≤ MAX_RECONNECT_ATTEMPTS ∧
      (getAttempts ⟨["t1"], [("t1", 4)]⟩ "t1").getD 0 = 5 - 1) ∧
    reconnectWaits (connectionUpdate ⟨["t1"], [("t1", 4)]⟩ "t1" (closeUpd (some 428))).2
      = [min (1000 * 2 ^ 5) 30000] :=
  ⟨⟨by decide, by decide, by decide, by decide⟩,
    (C2_backoff_formula ⟨["t1"], [("t1", 4)]⟩ "t1" (some 428) 5
      (by decide) (by decide) (by decide) (by decide)).1⟩

/-! ## Claim C5 -/

/-- Claim C5: reset on success.  A successful open event deletes the
tenant's attempt counter, so the next non-logout close computes its backoff
as attempt 1 — scheduling exactly one reconnect with delay
min(1000 * 2 ^ 1, 30000) = 2000 ms — rather than continuing from the count
accumulated before the open. -/
theorem C5_reset_on_success (s : BotsState) (id : String) (c : Option Nat)
    (hc : c ≠ some loggedOut) :
    getAttempts (connectionUpdate s id openUpd).1 id = none ∧
    reconnectWaits (connectionUpdate (connectionUpdate s id openUpd).1 id (closeUpd c)).2
      = [2000] := by
  have hopen : (connectionUpdate s id openUpd).1 = delAttempts s id := by
    simp [connectionUpdate, openUpd]
  have hga : getAttempts (delAttempts s id) id = none := getAttempts_delAttempts s id
  constructor
  · rw [hopen]; exact hga
  · rw [hopen]
    have h := closeRetry_waits (delAttempts s id) id c hc (by rw [hga]; decide)
    rw [hga] at h
    simpa using h

theorem C5_reset_on_success_witness :
    ((some 428 : Option Nat) ≠ some loggedOut) ∧
    (getAttempts (connectionUpdate ⟨["t1"], [("t1", 4)]⟩ "t1" openUpd).1 "t1" = none ∧
      reconnectWaits (connectionUpdate
        (connectionUpdate ⟨["t1"], [("t1", 4)]⟩ "t1" openUpd).1 "t1"
        (closeUpd (some 428))).2 = [2000]) :=
  ⟨by decide, C5_reset_on_success ⟨["t1"], [("t1", 4)]⟩ "t1" (some 428) (by decide)⟩

/-! ## Claim C1 -/

/-- One non-logout close from a freshly registered tenant (no counter):
counter becomes 1, backoff 2000 ms, old handle ended and a new one opened. -/
lemma closeStep_fresh (id : String) (c : Option Nat) (hc : c ≠ some loggedOut) :
    connectionUpdate ⟨[id], []⟩ id (closeUpd c) =
      (⟨[id], [(id, 1)]⟩,
       [Action.reconnectWait 2000, Action.endSock id, Action.ensureDir id,
        Action.openConn id]) := by
  simp only [connectionUpdate, closeUpd, Bool.false_eq_true, if_false]
  rw [if_pos ⟨hc, by simp [getAttempts, MAX_RECONNECT_ATTEMPTS]⟩]
  simp [getAttempts, setAttempts, delBot, hasBot, addBot, iniciarBot]

/-- One non-logout close with stored counter k, k + 1 within the maximum:
counter becomes k + 1 and one reconnect with the capped delay is
scheduled. -/
lemma closeStep_next (id : String) (c : Option Nat) (k : Nat) (hc : c ≠ some loggedOut)
    (hk : k + 1 ≤ MAX_RECONNECT_ATTEMPTS) :
    connectionUpdate ⟨[id], [(id, k)]⟩ id (closeUpd c) =
      (⟨[id], [(id, k + 1)]⟩,
       [Action.reconnectWait (min (1000 * 2 ^ (k + 1)) 30000), Action.endSock id,
        Action.ensureDir id, Action.openConn id]) := by
  simp only [connectionUpdate, closeUpd, Bool.false_eq_true, if_false]
  rw [if_pos ⟨hc, by simpa [getAttempts, List.find?_cons] using hk⟩]
  simp [getAttempts, setAttempts, delBot, hasBot, addBot, iniciarBot, List.find?_cons,
    List.filter_cons]

/-- A sixth consecutive close (stored counter 5): attempts = 6 exceeds the
maximum whatever the status code, so the tenant is abandoned — handle and
counter removed, nothing scheduled. -/
lemma closeStep_abandon (id : String) (c : Option Nat) :
    connectionUpdate ⟨[id], [(id, 5)]⟩ id (closeUpd c) = (⟨[], []⟩, []) := by
  simp only [connectionUpdate, closeUpd, Bool.false_eq_true, if_false]
  rw [if_neg (by simp [getAttempts, List.find?_cons, MAX_RECONNECT_ATTEMPTS]),
    if_pos (by simp [getAttempts, List.find?_cons, MAX_RECONNECT_ATTEMPTS])]
  simp [delAttempts, delBot, List.filter_cons]

/-- Claim C1 counterexample: after 5 consecutive non-logout closes with no
intervening open, the tenant has NOT transitioned to Abandoned — the handle
is still registered, the attempt counter is 5, and five reconnect attempts
(2000, 4000, 8000, 16000, 30000 ms) have been scheduled.  Abandonment only
happens on the next (sixth) close. -/
theorem C1_attempt_ceiling_counterexample :
    hasBot (runUpdates ⟨["t1"], []⟩ "t1" (List.replicate 5 (closeUpd (some 428)))).1 "t1"
        = true ∧
    getAttempts (runUpdates ⟨["t1"], []⟩ "t1" (List.replicate 5 (closeUpd (some 428)))).1 "t1"
        = some 5 ∧
    reconnectWaits (runUpdates ⟨["t1"], []⟩ "t1"
        (List.replicate 5 (closeUpd (some 428)))).2 = [2000, 4000, 8000, 16000, 30000] := by
  decide

/-- Claim C1 amended: after 6 consecutive close events with non-logout
status codes and no intervening successful open, the tenant transitions to
Abandoned — its handle is removed from the registry and its attempt counter
is removed — and exactly 5 reconnect attempts were scheduled during the run
(delays 2000..30000 ms); the sixth close schedules no reconnect. -/
theorem C1_attempt_ceiling_amended (id : String) (c1 c2 c3 c4 c5 c6 : Option Nat)
    (h1 : c1 ≠ some loggedOut) (h2 : c2 ≠ some loggedOut) (h3 : c3 ≠ some loggedOut)
    (h4 : c4 ≠ some loggedOut) (h5 : c5 ≠ some loggedOut) (h6 : c6 ≠ some loggedOut) :
    (runUpdates ⟨[id], []⟩ id
        [closeUpd c1, closeUpd c2, closeUpd c3, closeUpd c4, closeUpd c5, closeUpd c6]).1
      = ⟨[], []⟩ ∧
    reconnectWaits (runUpdates ⟨[id], []⟩ id
        [closeUpd c1, closeUpd c2, closeUpd c3, closeUpd c4, closeUpd c5, closeUpd c6]).2
      = [2000, 4000, 8000, 16000, 30000] := by
  have e1 := closeStep_fresh id c1 h1
  have e2 : connectionUpdate ⟨[id], [(id, 1)]⟩ id (closeUpd c2) =
      (⟨[id], [(id, 2)]⟩,
       [Action.reconnectWait 4000, Action.endSock id, Action.ensureDir id,
        Action.openConn id]) := closeStep_next id c2 1 h2 (by decide)
  have e3 : connectionUpdate ⟨[id], [(id, 2)]⟩ id (closeUpd c3) =
      (⟨[id], [(id, 3)]⟩,
       [Action.reconnectWait 8000, Action.endSock id, Action.ensureDir id,
        Action.openConn id]) := closeStep_next id c3 2 h3 (by decide)
  have e4 : connectionUpdate ⟨[id], [(id, 3)]⟩ id (closeUpd c4) =
      (⟨[id], [(id, 4)]⟩,
       [Action.reconnectWait 16000, Action.endSock id, Action.ensureDir id,
        Action.openConn id]) := closeStep_next id c4 3 h4 (by decide)
  have e5 : connectionUpdate ⟨[id], [(id, 4)]⟩ id (closeUpd c5) =
      (⟨[id], [(id, 5)]⟩,
       [Action.reconnectWait 30000, Action.endSock id, Action.ensureDir id,
        Action.openConn id]) := closeStep_next id c5 4 h5 (by decide)
  have e6 := closeStep_abandon id c6
  simp [runUpdates, e1, e2, e3, e4, e5, e6, reconnectWaits]

theorem C1_attempt_ceiling_amended_witness :
    ((some 428 : Option Nat) ≠ some loggedOut) ∧
    ((runUpdates ⟨["t1"], []⟩ "t1"
        [closeUpd (some 428), closeUpd (some 428), closeUpd (some 428), closeUpd (some 428),
         closeUpd (some 428), closeUpd (some 428)]).1 = ⟨[], []⟩ ∧
      reconnectWaits (runUpdates ⟨["t1"], []⟩ "t1"
        [closeUpd (some 428), closeUpd (some 428), closeUpd (some 428), closeUpd (some 428),
         closeUpd (some 428), closeUpd (some 428)]).2 = [2000, 4000, 8000, 16000, 30000]) :=
  ⟨by decide,
    C1_attempt_ceiling_amended "t1" (some 428) (some 428) (some 428) (some 428) (some 428)
      (some 428) (by decide) (by decide) (by decide) (by decide) (by decide) (by decide)⟩

/-! ## Claim C7 -/

/-- The local fallback never fails and never invokes a further fallback: in
every branch it either does nothing or sends one reply through
enviarMensaje, which swallows send errors. -/
lemma procesarMensajeLocal_ok (empresas : List Empresa) (registered sendOk : Bool)
    (empresaId : String) (d : MsgData) :
    (procesarMensajeLocal empresas registered sendOk empresaId d).1 = Except.ok () ∧
    countFallbacks (procesarMensajeLocal empresas registered sendOk empresaId d).2 = 0 := by
  unfold procesarMensajeLocal
  split
  · exact ⟨rfl, rfl⟩
  · split
    · unfold enviarMensaje sockSendMessage
      cases sendOk <;> simp [countFallbacks]
    · exact ⟨rfl, rfl⟩

/-- Claim C7: fallback safety.  For a dispatched inbound message (not from
self, non-empty conversation text), when the webhook POST fails — non-2xx
response, timeout or network error — the handler attempts the local
fallback exactly once, and the handler never throws (it completes with the
ok outcome whatever the fallback and the underlying send do). -/
theorem C7_fallback_safety (empresas : List Empresa) (w : WebhookOutcome)
    (registered sendOk : Bool) (empresaId sender t : String) (now : Nat)
    (hw : axiosOk w = false) (ht : t ≠ "") :
    (messagesUpsert empresas w registered sendOk empresaId false (some t) sender now).1
        = Except.ok () ∧
    countFallbacks (messagesUpsert empresas w registered sendOk empresaId false
        (some t) sender now).2 = 1 := by
  have hne : (t == "") = false := by
    simpa using ht
  have hp := procesarMensajeLocal_ok empresas registered sendOk empresaId
    ⟨t, sender, empresaId, now⟩
  simp only [messagesUpsert, hne, Bool.not_false, Bool.and_self, if_true,
    enviarMensajeAN8N, hw, Bool.false_eq_true, if_false]
  constructor
  · rw [hp.1]
  · simp [countFallbacks, hp.2]

theorem C7_fallback_safety_witness :
    (axiosOk WebhookOutcome.timeout = false ∧ ("hola" : String) ≠ "") ∧
    ((messagesUpsert [] WebhookOutcome.timeout true false ("e1") false (some ("hola"))
        ("51999@s.whatsapp.net") 0).1 = Except.ok () ∧
      countFallbacks (messagesUpsert [] WebhookOutcome.timeout true false ("e1") false
        (some ("hola")) ("51999@s.whatsapp.net") 0).2 = 1) :=
  ⟨⟨by decide, by decide⟩,
    C7_fallback_safety [] WebhookOutcome.timeout true false ("e1")
      ("51999@s.whatsapp.net") ("hola") 0 (by decide) (by decide)⟩

/-! ## Claim C8 -/

/-- Claim C8 counterexample: a failing outbound send is NOT reported to the
caller.  With a live handle and a send that fails (sendOk = false),
enviarMensaje swallows the error, so enviarMensajePorEmpresaId and
enviarRespuestaDesdeN8N both return a success result — refuting the claim
that the callers receive a failure result reporting the send error. -/
theorem C8_send_error_counterexample :
    (enviarMensajePorEmpresaId true false ("51999") ("hola")).1
        = ⟨true, "Mensaje enviado correctamente"⟩ ∧
    (enviarRespuestaDesdeN8N true false ("e1") ("51999") ("hola")).1.success = true := by
  decide

/-- Claim C8 amended: send errors are swallowed inside enviarMensaje (caught
and logged, never rethrown), so with a live handle both callers receive a
success result even when the underlying send fails; the send is attempted
exactly once (no automatic retry); a failure result arises only when the
tenant has no live handle. -/
theorem C8_send_error_amended (sendOk : Bool) (dest text empresaId : String) :
    (enviarMensajePorEmpresaId true sendOk dest text).1.success = true ∧
    (enviarMensajePorEmpresaId true sendOk dest text).2 = [Action.sendMsg dest text] ∧
    (enviarRespuestaDesdeN8N true sendOk empresaId dest text).1.success = true ∧
    (enviarRespuestaDesdeN8N true sendOk empresaId dest text).2
        = [Action.sendMsg dest text] ∧
    (enviarMensajePorEmpresaId false sendOk dest text).1.success = false ∧
    (enviarRespuestaDesdeN8N false sendOk empresaId dest text).1.success = false := by
  cases sendOk <;>
    simp [enviarMensajePorEmpresaId, enviarRespuestaDesdeN8N, enviarMensaje, sockSendMessage]

/-! ## Claim C6 -/

lemma mem_dedupAcc : ∀ (l seen : List String) (x : String),
    x ∈ dedupAcc seen l ↔ (x ∈ l ∧ x ∉ seen) := by
  intro l
  induction l with
  | nil => intro seen x; simp [dedupAcc]
  | cons y ys ih =>
    intro seen x
    by_cases hy : y ∈ seen
    · rw [show dedupAcc seen (y :: ys) = dedupAcc seen ys from by
        simp [dedupAcc, hy], ih]
      constructor
      · rintro ⟨hx, hns⟩
        exact ⟨List.mem_cons_of_mem y hx, hns⟩
      · rintro ⟨hx, hns⟩
        rcases List.mem_cons.1 hx with rfl | h
        · exact absurd hy hns
        · exact ⟨h, hns⟩
    · rw [show dedupAcc seen (y :: ys) = y :: dedupAcc (y :: seen) ys from by
        simp [dedupAcc, hy]]
      constructor
      · intro hx
        rcases List.mem_cons.1 hx with rfl | h
        · exact ⟨List.mem_cons_self x ys, hy⟩
        · have h2 := (ih (y :: seen) x).1 h
          refine ⟨List.mem_cons_of_mem y h2.1, fun hs => h2.2 (List.mem_cons_of_mem y hs)⟩
      · rintro ⟨hx, hns⟩
        rcases List.mem_cons.1 hx with rfl | h
        · exact List.mem_cons_self x _
        · by_cases hxy : x = y
          · subst hxy; exact List.mem_cons_self x _
          · refine List.mem_cons_of_mem y ((ih (y :: seen) x).2 ⟨h, ?_⟩)
            simp [List.mem_cons, hxy, hns]

lemma mem_clavesDe (archivos : List String) (k : String) :
    k ∈ clavesDe archivos ↔ ∃ a ∈ archivos, esSesion a = true ∧ chatKeyOf a = k := by
  unfold clavesDe
  rw [mem_dedupAcc]
  simp only [List.mem_map, List.mem_filter, List.not_mem_nil, not_false_iff, and_true]
  constructor
  · rintro ⟨a, ⟨ha, hs⟩, hk⟩
    exact ⟨a, ha, hs, hk⟩
  · rintro ⟨a, ha, hs, hk⟩
    exact ⟨a, ⟨ha, hs⟩, hk⟩

lemma mem_grupoDe {archivos : List String} {k a : String} :
    a ∈ grupoDe archivos k ↔ a ∈ archivos ∧ esSesion a = true ∧ chatKeyOf a = k := by
  unfold grupoDe
  rw [List.mem_filter]
  simp [Bool.and_eq_true, beq_iff_eq]

lemma sortDescTake10_subset {g : List String} {a : String}
    (h : a ∈ sortDescTake10 g) : a ∈ g := by
  unfold sortDescTake10 at h
  have h1 := List.mem_of_mem_take h
  rw [List.mem_reverse] at h1
  exact (perm_sortLe g).mem_iff.1 h1

lemma mem_sesionesActivas {archivos : List String} {a : String} :
    a ∈ sesionesActivas archivos ↔ a ∈ sortDescTake10 (grupoDe archivos (chatKeyOf a)) := by
  unfold sesionesActivas
  rw [List.mem_flatMap]
  constructor
  · rintro ⟨k, _, hmem⟩
    have hg : a ∈ grupoDe archivos k := sortDescTake10_subset hmem
    have hkey : chatKeyOf a = k := (mem_grupoDe.1 hg).2.2
    rwa [hkey]
  · intro h
    refine ⟨chatKeyOf a, ?_, h⟩
    have hg := sortDescTake10_subset h
    rcases mem_grupoDe.1 hg with ⟨ha, hs, _⟩
    exact (mem_clavesDe archivos (chatKeyOf a)).2 ⟨a, ha, hs, rfl⟩

/-- The session artifacts of chat key k that survive pruning are exactly the
members of the bucket that lie in its ten greatest names. -/
lemma kept_eq_filter_take (archivos : List String) (k : String) :
    (limpiarSesionesAntiguas archivos).filter (fun a => esSesion a && (chatKeyOf a == k))
      = (grupoDe archivos k).filter
          (fun a => decide (a ∈ sortDescTake10 (grupoDe archivos k))) := by
  unfold limpiarSesionesAntiguas grupoDe
  rw [List.filter_filter, List.filter_filter]
  apply List.filter_congr
  intro a _
  by_cases hs : esSesion a = true
  · by_cases hk : chatKeyOf a = k
    · have hbeq : (chatKeyOf a == k) = true := beq_iff_eq.2 hk
      simp only [hs, hbeq, Bool.and_true, Bool.true_and, Bool.not_true, Bool.false_or]
      rw [decide_eq_decide]
      rw [mem_sesionesActivas, hk]
      exact Iff.rfl
    · have hbeq : (chatKeyOf a == k) = false := by
        simp [hk]
      simp [hbeq]
  · have hs' : esSesion a = false := by
      revert hs
      cases esSesion a <;> simp
    simp [hs']

lemma nodup_sortDescTake10 {g : List String} (h : g.Nodup) : (sortDescTake10 g).Nodup := by
  unfold sortDescTake10
  have h1 : (sortLe g).Nodup := (perm_sortLe g).symm.nodup h
  have h2 : ((sortLe g).reverse).Nodup := List.nodup_reverse.2 h1
  exact (List.take_sublist 10 _).nodup h2

lemma length_sortDescTake10 (g : List String) :
    (sortDescTake10 g).length = min 10 g.length := by
  unfold sortDescTake10
  rw [List.length_take, List.length_reverse, (perm_sortLe g).length_eq]

/-- Every bucket member outside the ten greatest is strictly below every
member of the ten greatest. -/
lemma take10_ge_rest {g : List String} {r d : String}
    (hr : r ∈ sortDescTake10 g) (hd : d ∈ g) (hdn : d ∉ sortDescTake10 g) :
    leStr d r = true ∧ d ≠ r := by
  have hpw : ((sortLe g).reverse).Pairwise (fun a b => leStr b a = true) := by
    rw [List.pairwise_reverse]
    exact sorted_sortLe g
  have hL : d ∈ (sortLe g).reverse := by
    rw [List.mem_reverse]
    exact (perm_sortLe g).symm.mem_iff.1 hd
  have hsplit := List.take_append_drop 10 ((sortLe g).reverse)
  have hdrop : d ∈ ((sortLe g).reverse).drop 10 := by
    rcases List.mem_append.1 (by rw [hsplit]; exact hL) with h | h
    · exact absurd h hdn
    · exact h
  have hpw2 := hpw
  rw [← hsplit] at hpw2
  have hord := (List.pairwise_append.1 hpw2).2.2 r hr d hdrop
  refine ⟨hord, ?_⟩
  rintro rfl
  exact hdn hr

/-- The 15-artifact scenario input: names session-c1.01 .. session-c1.15. -/
def quinceArtifacts : List String :=
  ["session-c1.01", "session-c1.02", "session-c1.03", "session-c1.04", "session-c1.05",
   "session-c1.06", "session-c1.07", "session-c1.08", "session-c1.09", "session-c1.10",
   "session-c1.11", "session-c1.12", "session-c1.13", "session-c1.14", "session-c1.15"]

/-- The 15-artifact scenario survivors: session-c1.06 .. session-c1.15. -/
def quinceRetenidos : List String :=
  ["session-c1.06", "session-c1.07", "session-c1.08", "session-c1.09", "session-c1.10",
   "session-c1.11", "session-c1.12", "session-c1.13", "session-c1.14", "session-c1.15"]

/-- Claim C6: pruning retention.  For a (duplicate-free) tenant directory
listing, pruning groups the names carrying the session marker by their
embedded chat key and, for each chat key, retains exactly min(10, bucket
size) names — every deleted session name of the bucket being
lexicographically strictly below every retained one, so the retained names
are the min(10, bucket size) greatest.  In particular, of the 15 artifacts
session-c1.01 .. session-c1.15 exactly session-c1.06 .. session-c1.15
survive. -/
theorem C6_pruning_retention (archivos : List String) (k : String) (hnd : archivos.Nodup) :
    ((limpiarSesionesAntiguas archivos).filter
        (fun a => esSesion a && (chatKeyOf a == k))).length
      = min 10 (grupoDe archivos k).length ∧
    (∀ r ∈ (limpiarSesionesAntiguas archivos).filter
        (fun a => esSesion a && (chatKeyOf a == k)),
      ∀ d ∈ grupoDe archivos k,
        d ∉ (limpiarSesionesAntiguas archivos).filter
            (fun a => esSesion a && (chatKeyOf a == k)) →
        leStr d r = true ∧ d ≠ r) ∧
    limpiarSesionesAntiguas quinceArtifacts = quinceRetenidos := by
  have hkept := kept_eq_filter_take archivos k
  have hGnd : (grupoDe archivos k).Nodup := hnd.filter _
  have hTnd : (sortDescTake10 (grupoDe archivos k)).Nodup := nodup_sortDescTake10 hGnd
  have hmem : ∀ x, x ∈ (grupoDe archivos k).filter
      (fun a => decide (a ∈ sortDescTake10 (grupoDe archivos k))) ↔
      x ∈ sortDescTake10 (grupoDe archivos k) := by
    intro x
    rw [List.mem_filter]
    constructor
    · rintro ⟨_, hx⟩
      exact of_decide_eq_true hx
    · intro hx
      exact ⟨sortDescTake10_subset hx, decide_eq_true hx⟩
  have hperm : ((grupoDe archivos k).filter
      (fun a => decide (a ∈ sortDescTake10 (grupoDe archivos k)))).Perm
      (sortDescTake10 (grupoDe archivos k)) :=
    (List.perm_ext_iff_of_nodup (hGnd.filter _) hTnd).2 hmem
  refine ⟨?_, ?_, ?_⟩
  · rw [hkept, hperm.length_eq, length_sortDescTake10]
  · intro r hr d hd hdn
    rw [hkept] at hr hdn
    have hrT : r ∈ sortDescTake10 (grupoDe archivos k) := (hmem r).1 hr
    have hdT : d ∉ sortDescTake10 (grupoDe archivos k) := fun h => hdn ((hmem d).2 h)
    exact take10_ge_rest hrT hd hdT
  · decide

theorem C6_pruning_retention_witness :
    quinceArtifacts.Nodup ∧
    ((limpiarSesionesAntiguas quinceArtifacts).filter
        (fun a => esSesion a && (chatKeyOf a == "session-c1"))).length
      = min 10 (grupoDe quinceArtifacts ("session-c1")).length :=
  ⟨by decide,
    (C6_pruning_retention quinceArtifacts ("session-c1") (by decide)).1⟩

/-! ## Claim C10 -/

/-- Claim C10: pruning touches only session artifacts.  Any file of the
tenant namespace whose name does not start with the session marker (for
example creds.json) survives limpiarSesionesAntiguas: only names with the
marker are candidates for deletion. -/
theorem C10_pruning_frame (archivos : List String) (a : String)
    (hs : esSesion a = false) (ha : a ∈ archivos) :
    a ∈ limpiarSesionesAntiguas archivos := by
  unfold limpiarSesionesAntiguas
  refine List.mem_filter.2 ⟨ha, ?_⟩
  simp [hs]

theorem C10_pruning_frame_witness :
    (esSesion ("creds.json") = false ∧ ("creds.json" : String) ∈
        [("creds.json"), ("session-c1.01")]) ∧
    ("creds.json" : String) ∈ limpiarSesionesAntiguas [("creds.json"), ("session-c1.01")] :=
  ⟨⟨by decide, by decide⟩,
    C10_pruning_frame [("creds.json"), ("session-c1.01")] ("creds.json")
      (by decide) (by decide)⟩

end WhatsappBot
